import Mathlib

/-!
Shallow embedding of the EventQibla booking and ticket lifecycle engine.

Statuses are kept as the raw strings stored in the database
("active", "cancelled", "completed"), because several handlers compare
them against string literals and one comparison in the cancel handler
uses the literal "complete".  Times are milliseconds since the epoch,
as produced by JavaScript Date.getTime().
-/

namespace EventQibla

structure Event where
  id : Nat
  title : String
  status : String
  startTime : Int
  endTime : Int
  capacity : Nat
  price : Nat
  organiserId : Nat
deriving DecidableEq, Repr

structure Ticket where
  id : Nat
  eventId : Nat
  userId : Nat
  ticketCode : String
  price : Nat
  status : String
deriving DecidableEq, Repr

structure User where
  id : Nat
  fullName : String
  email : String
deriving DecidableEq, Repr

structure Notification where
  userId : Nat
  title : String
  content : String
  entityType : String
  entityId : Nat
deriving DecidableEq, Repr

/-- The relevant database tables. -/
structure DBState where
  events : List Event
  tickets : List Ticket
  users : List User
  waitlist : List (Nat × Nat)
  notifications : List Notification
deriving DecidableEq, Repr

/-- SELECT * FROM events WHERE id = eventId. -/
def findEvent (s : DBState) (eventId : Nat) : Option Event :=
  s.events.find? (fun e => e.id == eventId)

/-- JOIN users u ON t.user_id = u.id. -/
def findUser (s : DBState) (userId : Nat) : Option User :=
  s.users.find? (fun u => u.id == userId)

/-- SELECT COUNT(*) FROM tickets WHERE event_id = eventId
AND status IN ('active', 'completed'). -/
def activeOrCompletedCount (s : DBState) (eventId : Nat) : Nat :=
  (s.tickets.filter
    (fun t => t.eventId == eventId &&
      (t.status == "active" || t.status == "completed"))).length

/-- Payment details assembled from the request body by the booking handler. -/
structure PaymentDetails where
  cardNumber : String
  expirationDate : String
  cvc : String
  zipCode : String
  amount : Nat
deriving DecidableEq, Repr

/-- processPayment from the booking router: logs the details and
returns true unconditionally. -/
def processPayment (_paymentDetails : PaymentDetails) : Bool :=
  true

/-- Outcomes of the booking handler POST /:id. -/
inductive BookResult where
  | eventNotFound
  | eventEnded
  | fullyBooked
  | notEnoughTicketsLeft (left : Nat)
  | paymentFailed
  | success
deriving DecidableEq, Repr

/-- The read-and-validate phase of the booking handler: the event SELECT,
the end-time check, the ticket COUNT, the two capacity checks and the
payment call.  In the source all of this runs before BEGIN, on an
unlocked snapshot of the tables. -/
def bookDecision (s : DBState) (eventId : Nat) (quantity : Nat) (now : Int)
    (pay : PaymentDetails) : BookResult :=
  match findEvent s eventId with
  | none => .eventNotFound
  | some e =>
    if e.endTime < now then .eventEnded
    else
      let ticketCount := activeOrCompletedCount s eventId
      if e.capacity ≤ ticketCount then .fullyBooked
      else if e.capacity < ticketCount + quantity then
        .notEnoughTicketsLeft (e.capacity - ticketCount)
      else if 0 < e.price && !(processPayment pay) then .paymentFailed
      else .success

/-- The ticket rows inserted by the booking transaction: quantity rows,
status 'active', price pricePaid / quantity for priced events. -/
def newTickets (s : DBState) (e : Event) (userId quantity pricePaid : Nat) :
    List Ticket :=
  let pricePerTicket := if 0 < e.price then pricePaid / quantity else e.price
  (List.range quantity).map (fun i =>
    { id := s.tickets.length + i + 1
      eventId := e.id
      userId := userId
      ticketCode :=
        toString e.id ++ "-" ++ toString userId ++ "-" ++
          toString (s.tickets.length + i + 1)
      price := pricePerTicket
      status := "active" })

/-- The write phase of the booking handler, run inside BEGIN..COMMIT:
insert the tickets, delete the (event, user) waitlist row, create the
confirmation notification.  The notification insert carries a .catch
handler in the source, so when it fails (notifyFails) the error is
logged and the transaction still commits. -/
def bookPhase2 (s : DBState) (e : Event) (userId quantity pricePaid : Nat)
    (notifyFails : Bool) : DBState :=
  { s with
    tickets := s.tickets ++ newTickets s e userId quantity pricePaid
    waitlist := s.waitlist.filter (fun p => !(p.1 == e.id && p.2 == userId))
    notifications :=
      if notifyFails then s.notifications
      else s.notifications ++
        [{ userId := userId
           title := "Booking Confirmation: " ++ e.title
           content := "Thank you for purchasing tickets to " ++ e.title
           entityType := "event"
           entityId := e.id }] }

/-- The whole booking handler POST /:id run to completion without
interference: decision phase on the current state, then, on success,
the write phase. -/
def createBooking (s : DBState) (eventId userId quantity pricePaid : Nat)
    (now : Int) (pay : PaymentDetails) (notifyFails : Bool) :
    BookResult × DBState :=
  match findEvent s eventId, bookDecision s eventId quantity now pay with
  | some e, .success =>
    (.success, bookPhase2 s e userId quantity pricePaid notifyFails)
  | _, r => (r, s)

/-- Two concurrent bookings A and B for the same event, interleaved as
read-A, read-B, write-A, write-B.  The source permits this schedule:
the COUNT query and the capacity checks run before BEGIN and take no
lock on the event row, so both requests can observe the same ticket
count before either insert lands. -/
def raceBothRead (s : DBState) (eventId uA uB quantity pricePaidA pricePaidB : Nat)
    (now : Int) (pay : PaymentDetails) : BookResult × BookResult × DBState :=
  let dA := bookDecision s eventId quantity now pay
  let dB := bookDecision s eventId quantity now pay
  let s1 :=
    match findEvent s eventId, dA with
    | some e, .success => bookPhase2 s e uA quantity pricePaidA false
    | _, _ => s
  let s2 :=
    match findEvent s1 eventId, dB with
    | some e, .success => bookPhase2 s1 e uB quantity pricePaidB false
    | _, _ => s1
  (dA, dB, s2)

/-- Outcomes of the cancel handler DELETE /:ticketCode/cancel. -/
inductive CancelResult where
  | accessDenied
  | alreadyCancelled
  | eventCompleted
  | tooLate
  | internalError
  | success
deriving DecidableEq, Repr

def FIVE_MINUTES : Int := 5 * 60 * 1000

/-- SELECT ... FROM tickets t JOIN events e ...
WHERE t.ticket_code = $1 AND t.user_id = $2 FOR UPDATE. -/
def findTicketByCodeUser (s : DBState) (ticketCode : String) (userId : Nat) :
    Option Ticket :=
  s.tickets.find? (fun t => t.ticketCode == ticketCode && t.userId == userId)

/-- The voluntary cancel handler.  Note that the terminal-state guard
compares the ticket status against the literal "complete", while the
stored status written by check-in and by the completion sweep is
"completed".  The cancellation notification and the waitlist
notifications are awaited without a .catch handler, so a failing
notification insert (notifyFails) raises, is caught by the outer
handler, and rolls the whole transaction back (internalError). -/
def cancelTicket (s : DBState) (userId : Nat) (ticketCode : String)
    (now : Int) (notifyFails : Bool) : CancelResult × DBState :=
  match findTicketByCodeUser s ticketCode userId with
  | none => (.accessDenied, s)
  | some t =>
    match findEvent s t.eventId with
    | none => (.accessDenied, s)
    | some e =>
      if t.status == "cancelled" then (.alreadyCancelled, s)
      else if t.status == "complete" then (.eventCompleted, s)
      else if e.startTime - now < FIVE_MINUTES then (.tooLate, s)
      else if notifyFails then (.internalError, s)
      else
        let tickets' := s.tickets.map (fun u =>
          if u.ticketCode == ticketCode then { u with status := "cancelled" }
          else u)
        let waitlistUsers :=
          (s.waitlist.filter (fun p => p.1 == e.id)).map (fun p => p.2)
        let ownNotif : Notification :=
          { userId := userId
            title := "Ticket Cancelled: " ++ e.title
            content := "Your ticket for " ++ e.title ++ " has been cancelled."
            entityType := "ticket"
            entityId := t.id }
        let waitlistNotifs := waitlistUsers.map (fun uid =>
          { userId := uid
            title := "Ticket Available!"
            content := "A spot has opened up for " ++ e.title ++ ". Book now!"
            entityType := "event"
            entityId := e.id })
        (.success,
          { s with
            tickets := tickets'
            notifications := s.notifications ++ ownNotif :: waitlistNotifs })

/-- Outcomes of DELETE /:ticketCode/remove-attendee. -/
inductive RemoveResult where
  | reasonRequired
  | notFound
  | notOrganiser
  | eventStarted
  | alreadyCancelledOrNoAttendee
  | internalError
  | success
deriving DecidableEq, Repr

/-- The organiser remove-attendee handler.  The terminal-state guard
checks only for status "cancelled" (plus a falsy attendee id from the
users JOIN); a "completed" ticket passes it.  As in the cancel
handler, the notification inserts are awaited without a .catch, so a
failing insert rolls the transaction back. -/
def removeAttendee (s : DBState) (callerId : Nat) (ticketCode : String)
    (removalReason : String) (now : Int) (notifyFails : Bool) :
    RemoveResult × DBState :=
  if removalReason.trim == "" then (.reasonRequired, s)
  else
    match s.tickets.find? (fun t => t.ticketCode == ticketCode) with
    | none => (.notFound, s)
    | some t =>
      match findEvent s t.eventId, findUser s t.userId with
      | some e, some u =>
        if !(e.organiserId == callerId) then (.notOrganiser, s)
        else if e.startTime ≤ now then (.eventStarted, s)
        else if t.status == "cancelled" || u.id == 0 then
          (.alreadyCancelledOrNoAttendee, s)
        else if notifyFails then (.internalError, s)
        else
          let tickets' := s.tickets.map (fun x =>
            if x.ticketCode == ticketCode then { x with status := "cancelled" }
            else x)
          let waitlistUsers :=
            (s.waitlist.filter (fun p => p.1 == e.id)).map (fun p => p.2)
          let attendeeNotif : Notification :=
            { userId := u.id
              title := "Removed from event: " ++ e.title
              content := "You have been removed. Reason: " ++ removalReason
              entityType := "ticket"
              entityId := t.id }
          let waitlistNotifs := waitlistUsers.map (fun uid =>
            { userId := uid
              title := "Ticket Available!"
              content := "A spot has opened up for " ++ e.title ++ ". Book now!"
              entityType := "event"
              entityId := e.id })
          (.success,
            { s with
              tickets := tickets'
              notifications :=
                s.notifications ++ attendeeNotif :: waitlistNotifs })
      | _, _ => (.notFound, s)

/-- Outcomes of the check-in handler POST /:ticketCode/scan. -/
inductive ScanResult where
  | ticketNotFound
  | alreadyCheckedIn (attendeeName : String) (eventTitle : String)
  | ticketCancelled (attendeeName : String) (eventTitle : String)
  | invalidTicketStatus (status : String)
  | eventNotActive (eventStatus : String) (eventTitle : String)
  | checkInSuccess (attendeeName : String) (eventTitle : String)
deriving DecidableEq, Repr

/-- WHERE t.ticket_code = $1 AND t.event_id = $2 FOR UPDATE, with the
events and users JOINs. -/
def findTicketForEvent (s : DBState) (ticketCode : String) (eventId : Nat) :
    Option Ticket :=
  s.tickets.find? (fun t => t.ticketCode == ticketCode && t.eventId == eventId)

/-- The check-in handler: the SQL CASE first maps the ticket status
('completed' to already_checked_in, 'cancelled' to cancelled, 'active'
falls through, anything else is invalid), then the event status is
required to be 'active' before the ticket is set to 'completed'.
Every non-success branch rolls back the transaction. -/
def scanTicket (s : DBState) (ticketCode : String) (eventId : Nat) :
    ScanResult × DBState :=
  match findTicketForEvent s ticketCode eventId with
  | none => (.ticketNotFound, s)
  | some t =>
    match findEvent s t.eventId, findUser s t.userId with
    | some e, some u =>
      if t.status == "completed" then (.alreadyCheckedIn u.fullName e.title, s)
      else if t.status == "cancelled" then
        (.ticketCancelled u.fullName e.title, s)
      else if !(t.status == "active") then (.invalidTicketStatus t.status, s)
      else if !(e.status == "active") then (.eventNotActive e.status e.title, s)
      else
        (.checkInSuccess u.fullName e.title,
          { s with
            tickets := s.tickets.map (fun x =>
              if x.ticketCode == ticketCode then { x with status := "completed" }
              else x) })
    | _, _ => (.ticketNotFound, s)

/-- Outcomes of the waitlist join handler POST /:id/waitlist. -/
inductive JoinResult where
  | eventNotFound
  | alreadyOnWaitlist
  | added
deriving DecidableEq, Repr

/-- The waitlist join handler: requires the event to exist, then
returns a 400 conflict when the (event, user) pair is already present,
and otherwise inserts the pair.  No capacity check is made. -/
def joinWaitlist (s : DBState) (eventId userId : Nat) : JoinResult × DBState :=
  match findEvent s eventId with
  | none => (.eventNotFound, s)
  | some _ =>
    if s.waitlist.any (fun p => p.1 == eventId && p.2 == userId) then
      (.alreadyOnWaitlist, s)
    else
      (.added, { s with waitlist := s.waitlist ++ [(eventId, userId)] })

def HOUR_MS : Int := 60 * 60 * 1000

def DAY_MS : Int := 24 * 60 * 60 * 1000

/-- getUpcomingEvents: active events with start_time BETWEEN now AND
now + 24h. -/
def getUpcomingEvents (s : DBState) (now : Int) : List Event :=
  s.events.filter (fun e =>
    e.status == "active" && now ≤ e.startTime && e.startTime ≤ now + DAY_MS)

/-- getEventAttendees: DISTINCT user_id of active tickets of the event,
excluding the organiser. -/
def getEventAttendees (s : DBState) (eventId organiserId : Nat) : List Nat :=
  ((s.tickets.filter (fun t =>
      t.eventId == eventId && t.status == "active" &&
        !(t.userId == organiserId))).map (fun t => t.userId)).eraseDups

/-- The recipient set: the attendees plus the organiser (a JS Set, so
the organiser is appended only when not already present). -/
def reminderRecipients (s : DBState) (eventId organiserId : Nat) : List Nat :=
  let atts := getEventAttendees s eventId organiserId
  if atts.contains organiserId then atts else atts ++ [organiserId]

/-- The reminder notifications one run produces for one upcoming event:
the luxon hours-until-start lands in the 24-hour band when
start - now is within one hour of 24h, else in the 1-hour band when it
is within one hour of 1h; otherwise nothing is sent.  No record of
previous sends is consulted. -/
def remindersForEvent (s : DBState) (e : Event) (now : Int) :
    List Notification :=
  let recipients := reminderRecipients s e.id e.organiserId
  if (e.startTime - now - DAY_MS).natAbs < 3600000 then
    recipients.map (fun uid =>
      { userId := uid
        title := "Event Reminder (24 hours): " ++ e.title
        content := "Your event " ++ e.title ++ " is coming up tomorrow!"
        entityType := "event"
        entityId := e.id })
  else if (e.startTime - now - HOUR_MS).natAbs < 3600000 then
    recipients.map (fun uid =>
      { userId := uid
        title := "Event Reminder (1 hour): " ++ e.title
        content := "Your event " ++ e.title ++ " starts in 1 hour!"
        entityType := "event"
        entityId := e.id })
  else []

/-- EventReminderService.sendEventReminders: one sweep run at time
now, appending the reminders of every upcoming event. -/
def sendEventReminders (s : DBState) (now : Int) : DBState :=
  { s with
    notifications := s.notifications ++
      (getUpcomingEvents s now).flatMap (fun e => remindersForEvent s e now) }

/-- The completion sweep selection: events with status 'active' whose
end time has passed. -/
def pastEventSelect (now : Int) (e : Event) : Bool :=
  e.status == "active" && e.endTime < now

/-- UPDATE events SET status = 'completed' WHERE id = ANY(ids). -/
def completeEventMark (ids : List Nat) (e : Event) : Event :=
  if ids.contains e.id then { e with status := "completed" } else e

/-- UPDATE tickets SET status = 'completed'
WHERE event_id = ANY(ids) AND status = 'active'. -/
def completeTicketMark (ids : List Nat) (t : Ticket) : Ticket :=
  if ids.contains t.eventId && t.status == "active" then
    { t with status := "completed" }
  else t

/-- EventCompletionService.completePastEvents: select the elapsed
active events; if none, commit and stop; otherwise mark them
completed, bulk-complete their still-active tickets, and send one
thank-you notification per distinct completed-ticket holder per
event (read from the updated tickets table). -/
def completePastEvents (s : DBState) (now : Int) : DBState :=
  let pastEvents := s.events.filter (pastEventSelect now)
  if pastEvents.isEmpty then s
  else
    let ids := pastEvents.map (fun e => e.id)
    let events' := s.events.map (completeEventMark ids)
    let tickets' := s.tickets.map (completeTicketMark ids)
    let notifs := pastEvents.flatMap (fun e =>
      (((tickets'.filter (fun t =>
          t.eventId == e.id && t.status == "completed")).map
            (fun t => t.userId)).eraseDups).map (fun uid =>
        { userId := uid
          title := "Thanks for attending " ++ e.title ++ "!"
          content := "We hope you enjoyed " ++ e.title ++ "!"
          entityType := "event"
          entityId := e.id }))
    { s with
      events := events'
      tickets := tickets'
      notifications := s.notifications ++ notifs }

/-- Observer: the stored status of the first ticket with the given
code, as a SELECT status FROM tickets WHERE ticket_code = code. -/
def ticketStatusByCode (s : DBState) (ticketCode : String) : Option String :=
  (s.tickets.find? (fun t => t.ticketCode == ticketCode)).map (fun t => t.status)

/-- Observer: recognises a 1-hour reminder notification for an event. -/
def is1hReminderFor (e : Event) (n : Notification) : Bool :=
  n.title == "Event Reminder (1 hour): " ++ e.title && n.entityId == e.id

/-! Concrete states used by witnesses and counterexamples. -/

def payX : PaymentDetails :=
  { cardNumber := "", expirationDate := "", cvc := "", zipCode := "", amount := 0 }

/-- An active future event with capacity 1 and no tickets sold. -/
def evCap1 : Event :=
  { id := 1, title := "Gala", status := "active", startTime := 1000000000,
    endTime := 2000000000, capacity := 1, price := 0, organiserId := 7 }

def sRace : DBState :=
  { events := [evCap1], tickets := [], users := [], waitlist := [],
    notifications := [] }

/-- A cancelled event whose end time is still in the future. -/
def evCancelled : Event :=
  { id := 1, title := "Gala", status := "cancelled", startTime := 1000,
    endTime := 2000000000, capacity := 5, price := 0, organiserId := 7 }

def sCancelledEvent : DBState :=
  { events := [evCancelled], tickets := [], users := [], waitlist := [],
    notifications := [] }

/-- A completed (checked-in) ticket on an active future event. -/
def tCompleted : Ticket :=
  { id := 1, eventId := 1, userId := 3, ticketCode := "tc", price := 0,
    status := "completed" }

def sCompletedTicket : DBState :=
  { events := [evCap1], tickets := [tCompleted], users := [], waitlist := [],
    notifications := [] }

/-- An event starting exactly five minutes after time 0. -/
def evSoon : Event :=
  { id := 1, title := "Gala", status := "active", startTime := 300000,
    endTime := 2000000000, capacity := 5, price := 0, organiserId := 7 }

def tActiveSoon : Ticket :=
  { id := 1, eventId := 1, userId := 3, ticketCode := "t5", price := 0,
    status := "active" }

def sBoundary : DBState :=
  { events := [evSoon], tickets := [tActiveSoon], users := [], waitlist := [],
    notifications := [] }

/-- A state in which user 5 is already waitlisted for event 1. -/
def sWaitlisted : DBState :=
  { events := [evCap1], tickets := [], users := [], waitlist := [(1, 5)],
    notifications := [] }

/-- An active event starting 1.5 hours after time 0, with no tickets. -/
def evReminder : Event :=
  { id := 1, title := "Gala", status := "active", startTime := 5400000,
    endTime := 2000000000, capacity := 5, price := 0, organiserId := 7 }

def sReminder : DBState :=
  { events := [evReminder], tickets := [], users := [], waitlist := [],
    notifications := [] }

/-- A checked-in ticket together with its attendee row, for the scan
handler. -/
def uAnn : User := { id := 3, fullName := "Ann", email := "ann@example.com" }

def sScan : DBState :=
  { events := [evCap1], tickets := [tCompleted], users := [uAnn],
    waitlist := [], notifications := [] }

/-- An active event with spare capacity, for booking witnesses. -/
def evCap5 : Event :=
  { id := 1, title := "Gala", status := "active", startTime := 1000000000,
    endTime := 2000000000, capacity := 5, price := 0, organiserId := 7 }

def sOpen : DBState :=
  { events := [evCap5], tickets := [], users := [], waitlist := [],
    notifications := [] }

/-! Helper lemmas shared by several developments. -/

theorem createBooking_fst (s : DBState) (eventId userId quantity pricePaid : Nat)
    (now : Int) (pay : PaymentDetails) (notifyFails : Bool) :
    (createBooking s eventId userId quantity pricePaid now pay notifyFails).1 =
      bookDecision s eventId quantity now pay := by
  unfold createBooking
  cases h : findEvent s eventId with
  | none => cases bookDecision s eventId quantity now pay <;> simp
  | some e => cases bookDecision s eventId quantity now pay <;> simp

theorem createBooking_snd_of_ne (s : DBState)
    (eventId userId quantity pricePaid : Nat) (now : Int) (pay : PaymentDetails)
    (notifyFails : Bool)
    (h : (createBooking s eventId userId quantity pricePaid now pay notifyFails).1 ≠
      BookResult.success) :
    (createBooking s eventId userId quantity pricePaid now pay notifyFails).2 = s := by
  unfold createBooking at *
  cases hf : findEvent s eventId with
  | none => cases bookDecision s eventId quantity now pay <;> simp
  | some e =>
    rw [hf] at h
    cases hd : bookDecision s eventId quantity now pay <;> simp_all

theorem bookDecision_eq_success_iff (s : DBState) (eventId quantity : Nat)
    (now : Int) (pay : PaymentDetails) :
    bookDecision s eventId quantity now pay = BookResult.success ↔
      ∃ e, findEvent s eventId = some e ∧ ¬ e.endTime < now ∧
        activeOrCompletedCount s eventId < e.capacity ∧
        activeOrCompletedCount s eventId + quantity ≤ e.capacity := by
  unfold bookDecision
  cases h : findEvent s eventId with
  | none => simp
  | some e =>
    simp only [h, Option.some.injEq, exists_eq_left', processPayment,
      Bool.not_true, Bool.and_false, Bool.false_eq_true, if_false]
    split_ifs with h1 h2 h3 <;> simp <;> omega

/-- C1: the booking handler runs its COUNT query and both capacity
checks before BEGIN and without locking the event row, so the schedule
read-A, read-B, write-A, write-B is allowed; against an event with
capacity 1 and no existing tickets both concurrent reserve calls pass
the check and both insert, leaving 2 active-or-completed tickets on a
capacity-1 event.  The claim (and the capacity invariant) is violated. -/
theorem booking_race_two_successes :
    (raceBothRead sRace 1 10 20 1 0 0 0 payX).1 = BookResult.success ∧
    (raceBothRead sRace 1 10 20 1 0 0 0 payX).2.1 = BookResult.success ∧
    activeOrCompletedCount (raceBothRead sRace 1 10 20 1 0 0 0 payX).2.2 1 = 2 ∧
    evCap1.capacity = 1 ∧ activeOrCompletedCount sRace 1 = 0 := by
  decide

/-- C2: the voluntary-cancel handler guards the terminal state with
the literal "complete" while check-in stores "completed", so a
checked-in (completed, terminal) ticket slips past the guard and is
updated to cancelled — a transition out of a terminal state that the
handler was written to reject ("Event already completed"). -/
theorem completed_ticket_cancel_escapes_terminal :
    ticketStatusByCode sCompletedTicket "tc" = some "completed" ∧
    (cancelTicket sCompletedTicket 3 "tc" 0 false).1 = CancelResult.success ∧
    ticketStatusByCode (cancelTicket sCompletedTicket 3 "tc" 0 false).2 "tc" =
      some "cancelled" := by
  decide

/-- C10: processPayment returns true for every input, so no run of the
booking handler can reach the payment-declined response. -/
theorem payment_never_declines :
    (∀ d : PaymentDetails, processPayment d = true) ∧
    ∀ (s : DBState) (eventId userId quantity pricePaid : Nat) (now : Int)
      (pay : PaymentDetails) (notifyFails : Bool),
      (createBooking s eventId userId quantity pricePaid now pay notifyFails).1 ≠
        BookResult.paymentFailed := by
  refine ⟨fun _ => rfl, ?_⟩
  intro s eventId userId quantity pricePaid now pay notifyFails
  rw [createBooking_fst]
  unfold bookDecision
  cases h : findEvent s eventId with
  | none => simp
  | some e =>
    simp only [processPayment, Bool.not_true, Bool.and_false,
      Bool.false_eq_true, if_false]
    split_ifs <;> simp

/-- C10 witness: a concrete booking run does not report a declined
payment. -/
theorem payment_never_declines_witness :
    (createBooking sOpen 1 10 1 0 0 payX false).1 ≠ BookResult.paymentFailed :=
  payment_never_declines.2 sOpen 1 10 1 0 0 payX false

/-- C3 counterexample: the booking handler never reads event.status, so
a reservation against a cancelled event whose end time is in the
future succeeds and creates a ticket — contradicting the claim that
reserve succeeds only when event.status == active. -/
theorem reserve_status_unchecked_counterexample :
    evCancelled.status = "cancelled" ∧
    (createBooking sCancelledEvent 1 10 1 0 0 payX false).1 =
      BookResult.success ∧
    (createBooking sCancelledEvent 1 10 1 0 0 payX false).2.tickets.length = 1 := by
  decide

/-- C3 amended: reserve succeeds exactly when the event exists, its end
time has not passed (now ≤ end, not now < end), the current
active-or-completed count is below capacity and the count plus the
requested quantity fits the capacity; event.status is never consulted
and the payment step cannot fail.  On every non-success outcome the
caller receives a typed error and no rows are written. -/
theorem reserve_preconditions_characterization (s : DBState)
    (eventId userId quantity pricePaid : Nat) (now : Int) (pay : PaymentDetails)
    (notifyFails : Bool) :
    ((createBooking s eventId userId quantity pricePaid now pay notifyFails).1 =
        BookResult.success ↔
      ∃ e, findEvent s eventId = some e ∧ ¬ e.endTime < now ∧
        activeOrCompletedCount s eventId < e.capacity ∧
        activeOrCompletedCount s eventId + quantity ≤ e.capacity) ∧
    ((createBooking s eventId userId quantity pricePaid now pay notifyFails).1 ≠
        BookResult.success →
      (createBooking s eventId userId quantity pricePaid now pay notifyFails).2 = s) := by
  constructor
  · rw [createBooking_fst]
    exact bookDecision_eq_success_iff s eventId quantity now pay
  · exact createBooking_snd_of_ne s eventId userId quantity pricePaid now pay
      notifyFails

/-- C3 witness: both directions of the characterization at concrete
inputs — a booking against an open event succeeds, and a booking
against a missing event leaves the state untouched. -/
theorem reserve_preconditions_characterization_witness :
    (createBooking sOpen 1 10 1 0 0 payX false).1 = BookResult.success ∧
    (createBooking sOpen 2 10 1 0 0 payX false).2 = sOpen :=
  ⟨(reserve_preconditions_characterization sOpen 1 10 1 0 0 payX false).1.mpr
      ⟨evCap5, by decide, by decide, by decide, by decide⟩,
    (reserve_preconditions_characterization sOpen 2 10 1 0 0 payX false).2
      (by decide)⟩

/-- C4: the check-in handler maps the current ticket state to its
outcome — a completed ticket reports already-checked-in with the
original attendee name, a cancelled ticket reports ticket-cancelled, a
code that matches no ticket of the scanned event (in particular a
ticket of a different event) reports not-found, and an active ticket
of a non-active event reports event-not-active carrying the event
status — and every non-success outcome leaves the state unchanged. -/
theorem checkin_state_outcome_mapping (s : DBState) (ticketCode : String)
    (eventId : Nat) :
    (findTicketForEvent s ticketCode eventId = none →
      scanTicket s ticketCode eventId = (.ticketNotFound, s)) ∧
    (∀ t e u, findTicketForEvent s ticketCode eventId = some t →
      findEvent s t.eventId = some e → findUser s t.userId = some u →
      ((t.status = "completed" →
        scanTicket s ticketCode eventId =
          (.alreadyCheckedIn u.fullName e.title, s)) ∧
      (t.status = "cancelled" →
        scanTicket s ticketCode eventId =
          (.ticketCancelled u.fullName e.title, s)) ∧
      (t.status = "active" → e.status ≠ "active" →
        scanTicket s ticketCode eventId =
          (.eventNotActive e.status e.title, s)))) ∧
    ((∀ a b, (scanTicket s ticketCode eventId).1 ≠ ScanResult.checkInSuccess a b) →
      (scanTicket s ticketCode eventId).2 = s) := by
  refine ⟨?_, ?_, ?_⟩
  · intro h
    unfold scanTicket
    rw [h]
  · intro t e u ht he hu
    unfold scanTicket
    simp only [ht, he, hu]
    refine ⟨?_, ?_, ?_⟩
    · intro hst
      simp [hst]
    · intro hst
      simp [hst]
    · intro hst hes
      have hb : (e.status == "active") = false := beq_eq_false_iff_ne.mpr hes
      simp [hst, hb]
  · intro h
    unfold scanTicket at h ⊢
    cases ht : findTicketForEvent s ticketCode eventId with
    | none => simp [ht]
    | some t =>
      simp only [ht] at h ⊢
      cases he : findEvent s t.eventId with
      | none =>
        simp only [he] at h ⊢
      | some e =>
        simp only [he] at h ⊢
        cases hu : findUser s t.userId with
        | none =>
          simp only [hu] at h ⊢
        | some u =>
          simp only [hu] at h ⊢
          split_ifs at h ⊢ with h1 h2 h3 h4
          · rfl
          · rfl
          · rfl
          · rfl
          · exact absurd rfl (h u.fullName e.title)

/-- C4 witness: scanning a checked-in ticket of the right event reports
already-checked-in with the attendee identity and mutates nothing. -/
theorem checkin_state_outcome_mapping_witness :
    scanTicket sScan "tc" 1 = (ScanResult.alreadyCheckedIn "Ann" "Gala", sScan) :=
  ((checkin_state_outcome_mapping sScan "tc" 1).2.1 tCompleted evCap1 uAnn
    (by decide) (by decide) (by decide)).1 rfl

theorem find_cancelAll_eq (l : List Ticket) (code : String) :
    ((l.map (fun u =>
      if u.ticketCode == code then { u with status := "cancelled" } else u)).find?
        (fun t => t.ticketCode == code)) =
      (l.find? (fun t => t.ticketCode == code)).map
        (fun t => { t with status := "cancelled" }) := by
  rw [List.find?_map]
  have hpf : ((fun t : Ticket => t.ticketCode == code) ∘ (fun u =>
      if u.ticketCode == code then { u with status := "cancelled" } else u)) =
      (fun t : Ticket => t.ticketCode == code) := by
    funext u
    by_cases h : u.ticketCode = code
    · simp [h]
    · simp [h]
  rw [hpf]
  cases hf : l.find? (fun t => t.ticketCode == code) with
  | none => rfl
  | some a =>
    have hpa := List.find?_some hf
    have ha : a.ticketCode = code := by simpa using hpa
    simp [ha]

/-- C5 counterexample: at the exact boundary now = start − 5min (here
now = 0 and start = 300000 ms) the claim requires rejection with
TooLateToCancel and an unchanged ticket, but the handler tests
start − now < 5min strictly, lets the call through and cancels the
ticket. -/
theorem cancel_lockout_boundary_counterexample :
    (0 : Int) ≥ evSoon.startTime - FIVE_MINUTES ∧
    (cancelTicket sBoundary 3 "t5" 0 false).1 = CancelResult.success ∧
    ticketStatusByCode (cancelTicket sBoundary 3 "t5" 0 false).2 "t5" =
      some "cancelled" := by
  decide

/-- C5 amended: a voluntary cancellation is rejected as too late
exactly when now > start − 5min (strictly), and is permitted — the
ticket becomes cancelled — exactly when now ≤ start − 5min, for a
ticket of the caller that the handler does not consider terminal and
with the notification inserts succeeding. -/
theorem cancel_lockout_characterization (s : DBState) (userId : Nat)
    (ticketCode : String) (now : Int) (notifyFails : Bool) (t : Ticket) (e : Event)
    (hfind : findTicketByCodeUser s ticketCode userId = some t)
    (hev : findEvent s t.eventId = some e)
    (hnc : t.status ≠ "cancelled") (hncp : t.status ≠ "complete") :
    (e.startTime - FIVE_MINUTES < now →
      cancelTicket s userId ticketCode now notifyFails =
        (CancelResult.tooLate, s)) ∧
    (now ≤ e.startTime - FIVE_MINUTES → notifyFails = false →
      (cancelTicket s userId ticketCode now notifyFails).1 =
        CancelResult.success ∧
      ticketStatusByCode
        (cancelTicket s userId ticketCode now notifyFails).2 ticketCode =
          some "cancelled") := by
  have hb1 : (t.status == "cancelled") = false := beq_eq_false_iff_ne.mpr hnc
  have hb2 : (t.status == "complete") = false := beq_eq_false_iff_ne.mpr hncp
  unfold cancelTicket
  simp only [hfind, hev, hb1, hb2, Bool.false_eq_true, if_false]
  constructor
  · intro hlate
    have hc : e.startTime - now < FIVE_MINUTES := by omega
    rw [if_pos hc]
  · intro hok hnf
    have hc : ¬ (e.startTime - now < FIVE_MINUTES) := by omega
    rw [if_neg hc, hnf]
    simp only [Bool.false_eq_true, if_false]
    refine ⟨by simp, ?_⟩
    unfold findTicketByCodeUser at hfind
    have hmem : t ∈ s.tickets := List.mem_of_find?_eq_some hfind
    have hp := List.find?_some hfind
    have htc : (t.ticketCode == ticketCode) = true := by
      simp only [Bool.and_eq_true] at hp
      exact hp.1
    have hsome : (s.tickets.find? (fun x => x.ticketCode == ticketCode)).isSome :=
      List.find?_isSome.mpr ⟨t, hmem, htc⟩
    obtain ⟨t0, ht0⟩ := Option.isSome_iff_exists.mp hsome
    unfold ticketStatusByCode
    simp only [find_cancelAll_eq, ht0, Option.map_some']

/-- C5 witness: at the boundary instant now = start − 5min the
characterization yields a successful cancellation. -/
theorem cancel_lockout_characterization_witness :
    (cancelTicket sBoundary 3 "t5" 0 false).1 = CancelResult.success ∧
    ticketStatusByCode (cancelTicket sBoundary 3 "t5" 0 false).2 "t5" =
      some "cancelled" :=
  (cancel_lockout_characterization sBoundary 3 "t5" 0 false tActiveSoon evSoon
    (by decide) (by decide) (by decide) (by decide)).2 (by decide) rfl

/-- C6 counterexample: with (event 1, user 5) already on the waitlist,
a second join does not succeed as a no-op — the handler surfaces the
conflict as a 400 "You are already on the waitlist" error. -/
theorem waitlist_duplicate_join_conflict :
    (joinWaitlist sWaitlisted 1 5).1 = JoinResult.alreadyOnWaitlist ∧
    (joinWaitlist sWaitlisted 1 5).2 = sWaitlisted := by
  decide

/-- C6 amended: joining the waitlist of an existing event performs no
capacity check and inserts the (event, user) pair when it is absent,
but a duplicate join is rejected with a surfaced conflict error
(alreadyOnWaitlist, HTTP 400) rather than succeeding as a no-op. -/
theorem waitlist_join_characterization (s : DBState) (eventId userId : Nat) :
    (findEvent s eventId = none →
      joinWaitlist s eventId userId = (JoinResult.eventNotFound, s)) ∧
    ((findEvent s eventId).isSome → (eventId, userId) ∈ s.waitlist →
      joinWaitlist s eventId userId = (JoinResult.alreadyOnWaitlist, s)) ∧
    ((findEvent s eventId).isSome → (eventId, userId) ∉ s.waitlist →
      joinWaitlist s eventId userId =
        (JoinResult.added, { s with waitlist := s.waitlist ++ [(eventId, userId)] })) := by
  refine ⟨?_, ?_, ?_⟩
  · intro h
    unfold joinWaitlist
    rw [h]
  · intro hs hmem
    obtain ⟨e, he⟩ := Option.isSome_iff_exists.mp hs
    unfold joinWaitlist
    simp only [he]
    have hany : s.waitlist.any (fun p => p.1 == eventId && p.2 == userId) = true := by
      refine List.any_eq_true.mpr ⟨(eventId, userId), hmem, ?_⟩
      simp
    rw [if_pos hany]
  · intro hs hmem
    obtain ⟨e, he⟩ := Option.isSome_iff_exists.mp hs
    unfold joinWaitlist
    simp only [he]
    have hany : s.waitlist.any (fun p => p.1 == eventId && p.2 == userId) = false := by
      rw [List.any_eq_false]
      rintro ⟨a, b⟩ hp
      simp only [Bool.and_eq_true, beq_iff_eq, not_and]
      intro h1 h2
      subst h1
      subst h2
      exact hmem hp
    rw [hany]
    simp

/-- C6 witness: for a user not yet on the waitlist the join inserts the
pair. -/
theorem waitlist_join_characterization_witness :
    joinWaitlist sWaitlisted 1 9 =
      (JoinResult.added, { sWaitlisted with waitlist := sWaitlisted.waitlist ++ [(1, 9)] }) :=
  (waitlist_join_characterization sWaitlisted 1 9).2.2 (by decide) (by decide)

/-- C7 counterexample: a perfectly cancellable ticket (the same call
succeeds when the notification insert works) is NOT cancelled when the
notification insert fails — the cancel handler awaits
createNotification without a .catch, the raised error hits the outer
catch, and the whole transaction, ticket update included, is rolled
back with a 500. The claim that a notification failure never rolls
back the triggering mutation is false on the cancellation path. -/
theorem cancel_notification_failure_rolls_back :
    (cancelTicket sBoundary 3 "t5" 0 true).1 = CancelResult.internalError ∧
    (cancelTicket sBoundary 3 "t5" 0 true).2 = sBoundary ∧
    ticketStatusByCode sBoundary "t5" = some "active" ∧
    (cancelTicket sBoundary 3 "t5" 0 false).1 = CancelResult.success := by
  decide

/-- C7 amended: only the booking path treats notification creation as
best-effort — its confirmation insert carries a .catch, so a failing
insert changes neither the outcome nor the ticket rows written — while
on the voluntary-cancel path a failing notification insert always
aborts: the handler never reports success and the state, ticket status
included, is returned unchanged. -/
theorem notification_failure_paths (s : DBState)
    (eventId userId quantity pricePaid : Nat) (code : String) (now : Int)
    (pay : PaymentDetails) :
    ((createBooking s eventId userId quantity pricePaid now pay true).1 =
      (createBooking s eventId userId quantity pricePaid now pay false).1) ∧
    ((createBooking s eventId userId quantity pricePaid now pay true).1 =
        BookResult.success →
      (createBooking s eventId userId quantity pricePaid now pay true).2.tickets.length =
        s.tickets.length + quantity) ∧
    ((cancelTicket s userId code now true).2 = s ∧
      (cancelTicket s userId code now true).1 ≠ CancelResult.success) := by
  refine ⟨?_, ?_, ?_⟩
  · rw [createBooking_fst, createBooking_fst]
  · intro hsucc
    rw [createBooking_fst] at hsucc
    obtain ⟨e, he, -, -, -⟩ :=
      (bookDecision_eq_success_iff s eventId quantity now pay).mp hsucc
    unfold createBooking
    simp only [he, hsucc]
    simp [bookPhase2, newTickets]
  · cases hfind : findTicketByCodeUser s code userId with
    | none => simp [cancelTicket, hfind]
    | some t =>
      cases hev : findEvent s t.eventId with
      | none => simp [cancelTicket, hfind, hev]
      | some e =>
        simp only [cancelTicket, hfind, hev]
        split_ifs <;> simp

/-- C7 witness: a booking whose confirmation notification fails still
writes both ticket rows. -/
theorem notification_failure_paths_witness :
    (createBooking sOpen 1 10 2 0 0 payX true).2.tickets.length =
      sOpen.tickets.length + 2 :=
  (notification_failure_paths sOpen 1 10 2 0 "t5" 0 payX).2.1 (by decide)

theorem countP_le_countP_flatMap {α β : Type} (l : List α) (f : α → List β)
    (p : β → Bool) (a : α) (ha : a ∈ l) :
    (f a).countP p ≤ (l.flatMap f).countP p := by
  induction l with
  | nil => exact absurd ha (List.not_mem_nil a)
  | cons x xs ih =>
    rw [List.flatMap_cons, List.countP_append]
    rcases List.mem_cons.mp ha with h | h
    · subst h
      exact Nat.le_add_right _ _
    · exact le_trans (ih h) (Nat.le_add_left _ _)

theorem reminderRecipients_ne_nil (s : DBState) (eventId organiserId : Nat) :
    reminderRecipients s eventId organiserId ≠ [] := by
  unfold reminderRecipients
  by_cases h : (getEventAttendees s eventId organiserId).contains organiserId = true
  · rw [if_pos h]
    intro hnil
    rw [hnil] at h
    simp at h
  · rw [if_neg h]
    simp

/-- C8 counterexample: an active event starting 1.5 hours after the
first run is inside the 1-hour tolerance band on two consecutive
hourly runs (hoursUntil = 1.5 then 0.5, both within 1 of 1), and the
sweep keeps no record of what it sent, so the second run — still
within the same window — adds a second 1-hour reminder for the same
event instead of the zero additional reminders the claim requires. -/
theorem reminder_double_send :
    (sendEventReminders sReminder 0).notifications.countP
      (is1hReminderFor evReminder) = 1 ∧
    (sendEventReminders (sendEventReminders sReminder 0) 3600000).notifications.countP
      (is1hReminderFor evReminder) = 2 := by
  decide

/-- C8 amended: the reminder sweep consults no record of earlier
sends — every run whose time falls in an event's reminder band emits a
fresh full set of reminders for that event, so a subsequent run within
the same window re-notifies the same (event, window) pair (the 1-hour
band, 2 hours wide, contains two consecutive hourly cron ticks). -/
theorem reminder_resend_in_window (s : DBState) (e : Event) (now : Int)
    (hmem : e ∈ s.events) (hact : e.status = "active")
    (h1 : now ≤ e.startTime) (h2 : e.startTime ≤ now + DAY_MS)
    (hwin : (e.startTime - now - HOUR_MS).natAbs < 3600000) :
    (sendEventReminders s now).notifications.countP (is1hReminderFor e) ≥
      s.notifications.countP (is1hReminderFor e) + 1 := by
  have h24 : ¬ ((e.startTime - now - DAY_MS).natAbs < 3600000) := by
    unfold DAY_MS HOUR_MS at *
    omega
  unfold sendEventReminders
  simp only [List.countP_append]
  have hup : e ∈ getUpcomingEvents s now := by
    unfold getUpcomingEvents
    refine List.mem_filter.mpr ⟨hmem, ?_⟩
    simp [hact, h1, h2]
  have hone : 1 ≤ (remindersForEvent s e now).countP (is1hReminderFor e) := by
    simp only [remindersForEvent]
    rw [if_neg h24, if_pos hwin]
    cases hrec : reminderRecipients s e.id e.organiserId with
    | nil => exact absurd hrec (reminderRecipients_ne_nil s e.id e.organiserId)
    | cons r rs =>
      simp [List.countP_cons, is1hReminderFor]
  have hle : (remindersForEvent s e now).countP (is1hReminderFor e) ≤
      ((getUpcomingEvents s now).flatMap
        (fun e2 => remindersForEvent s e2 now)).countP (is1hReminderFor e) :=
    countP_le_countP_flatMap (getUpcomingEvents s now)
      (fun e2 => remindersForEvent s e2 now) (is1hReminderFor e) e hup
  omega

/-- C8 witness: the second hourly run (one hour after time 0, with the
event starting half an hour later) is still in the 1-hour window and
adds at least one more 1-hour reminder for the event. -/
theorem reminder_resend_in_window_witness :
    (sendEventReminders sReminder 3600000).notifications.countP
      (is1hReminderFor evReminder) ≥
      sReminder.notifications.countP (is1hReminderFor evReminder) + 1 :=
  reminder_resend_in_window sReminder evReminder 3600000 (by decide) rfl
    (by decide) (by decide) (by decide)

theorem completePastEvents_of_no_past (s : DBState) (now : Int)
    (h : (s.events.filter (pastEventSelect now)).isEmpty = true) :
    completePastEvents s now = s := by
  simp [completePastEvents, h]

theorem filter_completeEventMark_nil (now : Int) (ids : List Nat) (l : List Event)
    (h : ∀ e ∈ l, pastEventSelect now e = true → ids.contains e.id = true) :
    (l.map (completeEventMark ids)).filter (pastEventSelect now) = [] := by
  induction l with
  | nil => simp
  | cons x xs ih =>
    simp only [List.map_cons, List.filter_cons]
    have hx := h x (List.mem_cons_self x xs)
    have hxf : pastEventSelect now (completeEventMark ids x) = false := by
      unfold completeEventMark
      by_cases hc : ids.contains x.id = true
      · rw [if_pos hc]
        unfold pastEventSelect
        simp
      · rw [if_neg hc]
        cases hpx : pastEventSelect now x with
        | false => rfl
        | true => exact absurd (hx hpx) hc
    rw [hxf]
    simp only [Bool.false_eq_true, if_false]
    exact ih (fun e he hp => h e (List.mem_cons_of_mem x he) hp)

/-- C9: the completion sweep is idempotent — a second back-to-back run
(with no newly-elapsed events, here: at the same sweep time) finds no
event that is still active with its end time in the past, takes the
early-return branch and changes no event, ticket or notification row. -/
theorem completePastEvents_idempotent (s : DBState) (now : Int) :
    completePastEvents (completePastEvents s now) now = completePastEvents s now := by
  by_cases h : (s.events.filter (pastEventSelect now)).isEmpty = true
  · rw [completePastEvents_of_no_past s now h]
    exact completePastEvents_of_no_past s now h
  · have hev : (completePastEvents s now).events =
        s.events.map (completeEventMark
          ((s.events.filter (pastEventSelect now)).map (fun e => e.id))) := by
      simp [completePastEvents, h]
    have hsub : ∀ e ∈ s.events, pastEventSelect now e = true →
        ((s.events.filter (pastEventSelect now)).map (fun e => e.id)).contains e.id = true := by
      intro e he hp
      have hm : e ∈ s.events.filter (pastEventSelect now) :=
        List.mem_filter.mpr ⟨he, hp⟩
      have hid : e.id ∈ (s.events.filter (pastEventSelect now)).map (fun e => e.id) :=
        List.mem_map_of_mem _ hm
      simpa using hid
    have h2 : ((completePastEvents s now).events.filter (pastEventSelect now)).isEmpty = true := by
      rw [hev, filter_completeEventMark_nil now _ _ hsub]
      rfl
    exact completePastEvents_of_no_past _ now h2

end EventQibla
